import Mathlib

/-!
# UDP sample with button control: connection / power state machine

A shallow embedding of `src/main.c`.  The C globals become the fields of `State`;
every function of the source becomes a function on `State` with the same name.
The collaborators the source calls (modem library, socket layer, kernel work
queue) are represented by

* `Env`: the values the collaborator calls return during one handler run,
* `State.trace`: the collaborator calls made so far, in order,
* `State.open_fds`: the descriptors the socket layer currently holds open,
* `State.queue`: the pending firings of the four delayable work items.

`printk` output is not modelled: it has no effect on any of the above.
-/

namespace UdpSample

/-! ## Constants taken from the headers the source includes -/

/-- Value of `EFAULT` in `errno.h`. -/
def EFAULT : Int := 14

/-- Value of `EOPNOTSUPP` in `errno.h`. -/
def EOPNOTSUPP : Int := 95

/-- Mask `DK_BTN1_MSK` of `dk_buttons_and_leds.h`, bit 0. -/
def DK_BTN1_MSK : Nat := 1

/-- Mask `DK_BTN2_MSK` of `dk_buttons_and_leds.h`, bit 1. -/
def DK_BTN2_MSK : Nat := 2

/-- Mask `DK_BTN3_MSK` of `dk_buttons_and_leds.h`, bit 2. -/
def DK_BTN3_MSK : Nat := 4

/-- Mask `DK_BTN4_MSK` of `dk_buttons_and_leds.h`, bit 3. -/
def DK_BTN4_MSK : Nat := 8

/-- Value of `LTE_LC_NW_REG_REGISTERED_HOME` in `lte_lc.h`. -/
def LTE_LC_NW_REG_REGISTERED_HOME : Int := 1

/-- Value of `LTE_LC_NW_REG_REGISTERED_ROAMING` in `lte_lc.h`. -/
def LTE_LC_NW_REG_REGISTERED_ROAMING : Int := 5

/-- The delay `K_NO_WAIT`. -/
def K_NO_WAIT : Nat := 0

/-- The delay `K_SECONDS(n)`; time is counted in seconds. -/
def K_SECONDS (n : Nat) : Nat := n

/-! ## Data model -/

/-- The build-time options (`CONFIG_...`) the modelled functions depend on. -/
structure Config where
  UDP_PSM_ENABLE : Bool
  UDP_RAI_ENABLE : Bool
  UDP_DATA_UPLOAD_SIZE_BYTES : Nat
  UDP_DATA_UPLOAD_FREQUENCY_SECONDS : Nat
  deriving DecidableEq, Repr

/-- The C type `enum state_type`. -/
inductive state_type
  | LTE_STATE_ON
  | LTE_STATE_OFFLINE
  | LTE_STATE_BUSY
  deriving DecidableEq, Repr

open state_type

/-- The four `k_work_delayable` items of the source. -/
inductive Work
  | server_transmission_work
  | lte_set_connection_work
  | psm_negotiation_work
  | rai_req_work
  deriving DecidableEq, Repr

/-- The type `enum lte_lc_system_mode` of `lte_lc.h`. -/
inductive lte_lc_system_mode
  | NONE
  | LTEM
  | NBIOT
  | GPS
  | LTEM_GPS
  | NBIOT_GPS
  | LTEM_NBIOT
  | LTEM_NBIOT_GPS
  deriving DecidableEq, Repr

/-- The type `enum lte_lc_evt_type`; `OTHER` stands for every event type the
`switch` of `lte_handler` sends to `default`. -/
inductive lte_lc_evt_type
  | NW_REG_STATUS
  | PSM_UPDATE
  | EDRX_UPDATE
  | RRC_UPDATE
  | CELL_UPDATE
  | OTHER (code : Nat)
  deriving DecidableEq, Repr

/-- The part of `struct lte_lc_evt` that `lte_handler` branches on; the other
members of the union are only printed. -/
structure lte_lc_evt where
  type : lte_lc_evt_type
  nw_reg_status : Int
  deriving DecidableEq, Repr

/-- The two socket options the transmit job sets. -/
inductive SockOpt
  | SO_RAI_LAST
  | SO_RAI_NO_DATA
  deriving DecidableEq, Repr

/-- A call made to a collaborator, with its arguments. -/
inductive Call
  | lte_lc_system_mode_get
  | nrf_modem_at_printf (cmd : String)
  | lte_lc_offline
  | lte_lc_normal
  | lte_lc_psm_req (enable : Bool)
  | socket
  | connect (fd : Int)
  | setsockopt (fd : Int) (opt : SockOpt)
  | send (fd : Int) (len : Nat)
  | close (fd : Int)
  deriving DecidableEq, Repr

/-- What the collaborators answer during one handler run.  The socket results
are the answers for a call on an open descriptor; a call on a descriptor that is
not open fails whatever the field says (see `fd_call`).  The answers of
`lte_lc_offline`, `lte_lc_normal`, `lte_lc_psm_req` and `setsockopt` are listed for
completeness: the source discards them or only prints them. -/
structure Env where
  system_mode_get_ret : Int
  system_mode : lte_lc_system_mode
  at_printf_ret : Int
  lte_lc_offline_ret : Int
  lte_lc_normal_ret : Int
  lte_lc_psm_req_ret : Int
  socket_ret : Int
  errno : Int
  connect_ret : Int
  setsockopt_last_ret : Int
  send_ret : Int
  setsockopt_no_data_ret : Int
  deriving DecidableEq, Repr

/-- The globals of `main.c` together with the observable state of the
collaborators. -/
structure State where
  LTE_Connection_Current_State : state_type
  LTE_Connection_Target_State : state_type
  PSM_Enable : Bool
  RAI_Enable : Bool
  client_fd : Int
  open_fds : List Int
  queue : List (Work × Nat)
  now : Nat
  trace : List Call
  deriving DecidableEq, Repr

/-! ## Collaborators -/

/-- Record a collaborator call. -/
def State.call (s : State) (c : Call) : State :=
  { s with trace := s.trace ++ [c] }

/-- Result of a socket-layer call on descriptor `fd`: the collaborator's answer
when `fd` is open, `-1` (bad descriptor) otherwise. -/
def fd_call (s : State) (fd : Int) (ret : Int) : Int :=
  if fd ∈ s.open_fds then ret else -1

/-- The call `socket(AF_INET, SOCK_DGRAM, IPPROTO_UDP)`: a non-negative result is a
descriptor that is open from now on. -/
def sys_socket (env : Env) (s : State) : Int × State :=
  let s1 := s.call Call.socket
  if 0 ≤ env.socket_ret then
    (env.socket_ret, { s1 with open_fds := env.socket_ret :: s1.open_fds })
  else
    (env.socket_ret, s1)

/-- The call `connect(fd, &host_addr, ...)`. -/
def sys_connect (env : Env) (fd : Int) (s : State) : Int × State :=
  (fd_call s fd env.connect_ret, s.call (Call.connect fd))

/-- The call `setsockopt(fd, SOL_SOCKET, opt, NULL, 0)`. -/
def sys_setsockopt (ret : Int) (fd : Int) (opt : SockOpt) (s : State) : Int × State :=
  (fd_call s fd ret, s.call (Call.setsockopt fd opt))

/-- The call `send(fd, buffer, len, 0)`. -/
def sys_send (env : Env) (fd : Int) (len : Nat) (s : State) : Int × State :=
  (fd_call s fd env.send_ret, s.call (Call.send fd len))

/-- The call `close(fd)`: afterwards `fd` is not open. -/
def sys_close (fd : Int) (s : State) : State :=
  { s.call (Call.close fd) with open_fds := s.open_fds.filter (fun d => d ≠ fd) }

/-- The call `k_work_reschedule(w, delay)`: any pending firing of `w` is dropped and
one firing at `now + delay` is entered. -/
def k_work_reschedule (w : Work) (delay : Nat) (s : State) : State :=
  { s with queue := s.queue.filter (fun e => e.1 ≠ w) ++ [(w, s.now + delay)] }

/-- The call `k_work_schedule(w, delay)`: nothing happens when `w` is already
pending, otherwise one firing at `now + delay` is entered. -/
def k_work_schedule (w : Work) (delay : Nat) (s : State) : State :=
  if s.queue.any (fun e => e.1 = w) then s
  else { s with queue := s.queue ++ [(w, s.now + delay)] }

/-- The fire times at which `w` is pending, in scheduling order. -/
def pending (w : Work) (s : State) : List Nat :=
  (s.queue.filter (fun e => e.1 = w)).map (fun e => e.2)

/-! ## The functions of `main.c` -/

/-- The function `rai_req` (lines 40-77). -/
def rai_req (env : Env) (enable : Bool) (s : State) : Int × State :=
  let s1 := s.call Call.lte_lc_system_mode_get
  if env.system_mode_get_ret ≠ 0 then (-EFAULT, s1)
  else
    match env.system_mode with
    | .LTEM | .LTEM_GPS | .NBIOT | .NBIOT_GPS | .LTEM_NBIOT | .LTEM_NBIOT_GPS =>
      let s2 := s1.call (Call.nrf_modem_at_printf (if enable then "AT%RAI=1" else "AT%RAI=0"))
      if env.at_printf_ret ≠ 0 then (-EFAULT, s2) else (0, s2)
    | _ => (-EOPNOTSUPP, s1)

/-- The function `button_handler` (lines 79-118). -/
def button_handler (cfg : Config) (button_state has_changed : Nat) (s : State) : State :=
  let button := button_state &&& has_changed
  let s1 :=
    if button &&& DK_BTN1_MSK ≠ 0 then
      if s.LTE_Connection_Current_State = LTE_STATE_ON then
        k_work_reschedule Work.server_transmission_work K_NO_WAIT s
      else s
    else s
  let s2 :=
    if button &&& DK_BTN2_MSK ≠ 0 then
      if s1.LTE_Connection_Current_State = LTE_STATE_ON then
        k_work_reschedule Work.lte_set_connection_work K_NO_WAIT
          { s1 with LTE_Connection_Target_State := LTE_STATE_OFFLINE }
      else if s1.LTE_Connection_Current_State = LTE_STATE_OFFLINE then
        k_work_reschedule Work.lte_set_connection_work K_NO_WAIT
          { s1 with LTE_Connection_Target_State := LTE_STATE_ON }
      else s1
    else s1
  let s3 :=
    if cfg.UDP_PSM_ENABLE then
      if button &&& DK_BTN3_MSK ≠ 0 then
        k_work_reschedule Work.psm_negotiation_work K_NO_WAIT
          { s2 with PSM_Enable := !s2.PSM_Enable }
      else s2
    else s2
  let s4 :=
    if cfg.UDP_PSM_ENABLE then
      if button &&& DK_BTN4_MSK ≠ 0 then
        k_work_reschedule Work.rai_req_work K_NO_WAIT
          { s3 with RAI_Enable := !s3.RAI_Enable }
      else s3
    else s3
  s4

/-- The function `server_disconnect` (lines 120-123). -/
def server_disconnect (s : State) : State :=
  sys_close s.client_fd s

/-- The function `server_connect` (lines 138-162). -/
def server_connect (env : Env) (s : State) : Int × State :=
  let r := sys_socket env s
  let s1 : State := { r.2 with client_fd := r.1 }
  if s1.client_fd < 0 then
    (-env.errno, server_disconnect s1)
  else
    let c := sys_connect env s1.client_fd s1
    if c.1 < 0 then (c.1, server_disconnect c.2)
    else (0, c.2)

/-- The function `lte_handler` (lines 165-215). -/
def lte_handler (evt : lte_lc_evt) (s : State) : State :=
  match evt.type with
  | .NW_REG_STATUS =>
    if evt.nw_reg_status ≠ LTE_LC_NW_REG_REGISTERED_HOME ∧
        evt.nw_reg_status ≠ LTE_LC_NW_REG_REGISTERED_ROAMING then
      if evt.nw_reg_status = 0 then
        { s with LTE_Connection_Current_State := LTE_STATE_OFFLINE }
      else s
    else
      { s with LTE_Connection_Current_State := LTE_STATE_ON }
  | .PSM_UPDATE => s
  | .EDRX_UPDATE => s
  | .RRC_UPDATE => s
  | .CELL_UPDATE => s
  | .OTHER _ => s

/-- The function `server_transmission_work_fn` (lines 298-334). -/
def server_transmission_work_fn (cfg : Config) (env : Env) (s : State) : State :=
  let s1 := (server_connect env s).2
  let s2 :=
    if s1.RAI_Enable then
      (sys_setsockopt env.setsockopt_last_ret s1.client_fd SockOpt.SO_RAI_LAST s1).2
    else s1
  let r := sys_send env s2.client_fd cfg.UDP_DATA_UPLOAD_SIZE_BYTES s2
  if r.1 < 0 then r.2
  else
    let s3 :=
      if r.2.RAI_Enable then
        (sys_setsockopt env.setsockopt_no_data_ret r.2.client_fd SockOpt.SO_RAI_NO_DATA r.2).2
      else r.2
    let s4 := server_disconnect s3
    k_work_schedule Work.server_transmission_work
      (K_SECONDS cfg.UDP_DATA_UPLOAD_FREQUENCY_SECONDS) s4

/-- The function `lte_set_connection_work_fn` (lines 336-360). -/
def lte_set_connection_work_fn (cfg : Config) (env : Env) (s : State) : State :=
  if s.LTE_Connection_Target_State = LTE_STATE_BUSY then
    { s with LTE_Connection_Current_State := LTE_STATE_BUSY }
  else
    let s1 : State := { s with LTE_Connection_Current_State := LTE_STATE_BUSY }
    if s1.LTE_Connection_Target_State = LTE_STATE_OFFLINE then
      s1.call Call.lte_lc_offline
    else if s1.LTE_Connection_Target_State = LTE_STATE_ON then
      let s2 := s1.call Call.lte_lc_offline
      let s3 := if cfg.UDP_RAI_ENABLE then (rai_req env s2.RAI_Enable s2).2 else s2
      s3.call Call.lte_lc_normal
    else s1

/-- The function `psm_negotiation_work_fn` (lines 362-371). -/
def psm_negotiation_work_fn (s : State) : State :=
  s.call (Call.lte_lc_psm_req s.PSM_Enable)

/-- The function `rai_req_work_fn` (lines 373-381). -/
def rai_req_work_fn (env : Env) (s : State) : State :=
  (rai_req env s.RAI_Enable s).2

/-- The handler `work_init` attaches to each work item (lines 383-389). -/
def work_handler (cfg : Config) (env : Env) : Work → State → State
  | .server_transmission_work => server_transmission_work_fn cfg env
  | .lte_set_connection_work => lte_set_connection_work_fn cfg env
  | .psm_negotiation_work => psm_negotiation_work_fn
  | .rai_req_work => rai_req_work_fn env

/-- One execution of a work item by the kernel work queue: the item leaves the
queue, then its handler runs. -/
def run_work (cfg : Config) (env : Env) (w : Work) (s : State) : State :=
  work_handler cfg env w { s with queue := s.queue.filter (fun e => e.1 ≠ w) }

/-! ## The system as a whole -/

/-- What can happen to the running program. -/
inductive Event
  | button (button_state has_changed : Nat)
  | lte (evt : lte_lc_evt)
  | work (w : Work) (env : Env)
  | tick (seconds : Nat)
  deriving DecidableEq, Repr

/-- The effect of one event.  A work item may be executed at any time, which
covers every order in which the kernel can fire the pending items. -/
def step (cfg : Config) (s : State) : Event → State
  | .button button_state has_changed => button_handler cfg button_state has_changed s
  | .lte evt => lte_handler evt s
  | .work w env => run_work cfg env w s
  | .tick seconds => { s with now := s.now + seconds }

/-- The effect of a finite sequence of events. -/
def run (cfg : Config) (s : State) (evs : List Event) : State :=
  evs.foldl (step cfg) s

/-- The state `main` sets up before any handler can run (static initialisers and
lines 403-404). -/
def boot_state : State :=
  { LTE_Connection_Current_State := LTE_STATE_BUSY
    LTE_Connection_Target_State := LTE_STATE_ON
    PSM_Enable := true
    RAI_Enable := false
    client_fd := 0
    open_fds := []
    queue := []
    now := 0
    trace := [] }

/-- A build with every optional feature compiled in, uploading 1 byte every 60 s. -/
def sample_config : Config :=
  { UDP_PSM_ENABLE := true
    UDP_RAI_ENABLE := true
    UDP_DATA_UPLOAD_SIZE_BYTES := 1
    UDP_DATA_UPLOAD_FREQUENCY_SECONDS := 60 }

/-- A build with the optional features compiled out. -/
def plain_config : Config :=
  { UDP_PSM_ENABLE := false
    UDP_RAI_ENABLE := false
    UDP_DATA_UPLOAD_SIZE_BYTES := 1
    UDP_DATA_UPLOAD_FREQUENCY_SECONDS := 60 }

/-- The boot state after the link has reported registration. -/
def online_state : State :=
  { boot_state with LTE_Connection_Current_State := LTE_STATE_ON }

/-- Collaborators that answer every call with success: LTE-M mode, descriptor 3. -/
def good_env : Env :=
  { system_mode_get_ret := 0
    system_mode := lte_lc_system_mode.LTEM
    at_printf_ret := 0
    lte_lc_offline_ret := 0
    lte_lc_normal_ret := 0
    lte_lc_psm_req_ret := 0
    socket_ret := 3
    errno := 0
    connect_ret := 0
    setsockopt_last_ret := 0
    send_ret := 1
    setsockopt_no_data_ret := 0 }

/-- The collaborator calls `rai_req` makes, read off a run of `rai_req` that
starts with an empty trace. -/
def rai_req_calls (env : Env) (enable : Bool) : List Call :=
  (rai_req env enable boot_state).2.trace

/-- Of the four inputs, exactly the one with mask `msk` is reported as newly
pressed by the pair `(button_state, has_changed)`. -/
def only_pressed (msk button_state has_changed : Nat) : Prop :=
  (button_state &&& has_changed) &&& msk ≠ 0 ∧
    ∀ m ∈ [DK_BTN1_MSK, DK_BTN2_MSK, DK_BTN3_MSK, DK_BTN4_MSK],
      m ≠ msk → (button_state &&& has_changed) &&& m = 0

/-- Collaborators that succeed except for `send`, which reports an error. -/
def send_fails_env : Env :=
  { good_env with send_ret := -1 }

/-- The state `button_handler` has reached when it comes to its input-4 block
(lines 110-117): the effect of the blocks for inputs 1, 2 and 3. -/
def before_input4 (cfg : Config) (button : Nat) (s : State) : State :=
  let s1 :=
    if button &&& DK_BTN1_MSK ≠ 0 then
      if s.LTE_Connection_Current_State = LTE_STATE_ON then
        k_work_reschedule Work.server_transmission_work K_NO_WAIT s
      else s
    else s
  let s2 :=
    if button &&& DK_BTN2_MSK ≠ 0 then
      if s1.LTE_Connection_Current_State = LTE_STATE_ON then
        k_work_reschedule Work.lte_set_connection_work K_NO_WAIT
          { s1 with LTE_Connection_Target_State := LTE_STATE_OFFLINE }
      else if s1.LTE_Connection_Current_State = LTE_STATE_OFFLINE then
        k_work_reschedule Work.lte_set_connection_work K_NO_WAIT
          { s1 with LTE_Connection_Target_State := LTE_STATE_ON }
      else s1
    else s1
  if cfg.UDP_PSM_ENABLE then
    if button &&& DK_BTN3_MSK ≠ 0 then
      k_work_reschedule Work.psm_negotiation_work K_NO_WAIT
        { s2 with PSM_Enable := !s2.PSM_Enable }
    else s2
  else s2

instance (msk button_state has_changed : Nat) :
    Decidable (only_pressed msk button_state has_changed) := by
  unfold only_pressed
  infer_instance

/-! ## Helper lemmas -/

theorem rai_req_state (env : Env) (enable : Bool) (s : State) :
    (rai_req env enable s).2 = { s with trace := s.trace ++ rai_req_calls env enable } := by
  cases h : env.system_mode <;> by_cases h1 : env.system_mode_get_ret = 0 <;>
    by_cases h2 : env.at_printf_ret = 0 <;>
    simp [rai_req, rai_req_calls, h, h1, h2, State.call, boot_state]

theorem lte_set_connection_work_fn_current (cfg : Config) (env : Env) (s : State) :
    (lte_set_connection_work_fn cfg env s).LTE_Connection_Current_State = LTE_STATE_BUSY := by
  simp only [lte_set_connection_work_fn, rai_req_state]
  split_ifs <;> simp [State.call]

theorem lte_handler_target (evt : lte_lc_evt) (s : State) :
    (lte_handler evt s).LTE_Connection_Target_State = s.LTE_Connection_Target_State := by
  cases h : evt.type <;> simp only [lte_handler, h]
  split_ifs <;> rfl

theorem lte_handler_PSM_Enable (evt : lte_lc_evt) (s : State) :
    (lte_handler evt s).PSM_Enable = s.PSM_Enable := by
  cases h : evt.type <;> simp only [lte_handler, h]
  split_ifs <;> rfl

theorem lte_handler_RAI_Enable (evt : lte_lc_evt) (s : State) :
    (lte_handler evt s).RAI_Enable = s.RAI_Enable := by
  cases h : evt.type <;> simp only [lte_handler, h]
  split_ifs <;> rfl

theorem only_pressed_btn2 {button_state has_changed : Nat}
    (h : only_pressed DK_BTN2_MSK button_state has_changed) :
    (button_state &&& has_changed) &&& DK_BTN1_MSK = 0 ∧
    (button_state &&& has_changed) &&& DK_BTN2_MSK ≠ 0 ∧
    (button_state &&& has_changed) &&& DK_BTN3_MSK = 0 ∧
    (button_state &&& has_changed) &&& DK_BTN4_MSK = 0 := by
  obtain ⟨h2, hm⟩ := h
  refine ⟨hm _ (by simp) (by decide), h2, hm _ (by simp) (by decide), hm _ (by simp) (by decide)⟩

theorem filter_eq_filter_ne (w : Work) (q : List (Work × Nat)) :
    (q.filter (fun e => e.1 ≠ w)).filter (fun e => e.1 = w) = [] := by
  induction q with
  | nil => rfl
  | cons a q ih =>
    by_cases ha : a.1 = w
    · simp [List.filter_cons, ha]
    · simp [List.filter_cons, ha]

theorem pending_dequeued (w : Work) (s : State) :
    pending w { s with queue := s.queue.filter (fun e => e.1 ≠ w) } = [] := by
  have h := filter_eq_filter_ne w s.queue
  simp only [pending, h, List.map_nil]

theorem pending_reschedule_self (w : Work) (delay : Nat) (s : State) :
    pending w (k_work_reschedule w delay s) = [s.now + delay] := by
  have h := filter_eq_filter_ne w s.queue
  simp [pending, k_work_reschedule, List.filter_append, h]

theorem input2_busy_noop (cfg : Config) (button_state has_changed : Nat)
    (s : State) (hp : only_pressed DK_BTN2_MSK button_state has_changed)
    (hc : s.LTE_Connection_Current_State = LTE_STATE_BUSY) :
    button_handler cfg button_state has_changed s = s := by
  obtain ⟨h1, h2, h3, h4⟩ := only_pressed_btn2 hp
  simp [button_handler, h1, h2, h3, h4, hc]

theorem button_handler_current (cfg : Config) (button_state has_changed : Nat) (s : State) :
    (button_handler cfg button_state has_changed s).LTE_Connection_Current_State
      = s.LTE_Connection_Current_State := by
  by_cases h1 : (button_state &&& has_changed) &&& DK_BTN1_MSK = 0 <;>
    by_cases h2 : (button_state &&& has_changed) &&& DK_BTN2_MSK = 0 <;>
    by_cases h3 : (button_state &&& has_changed) &&& DK_BTN3_MSK = 0 <;>
    by_cases h4 : (button_state &&& has_changed) &&& DK_BTN4_MSK = 0 <;>
    cases hp : cfg.UDP_PSM_ENABLE <;>
    cases hc : s.LTE_Connection_Current_State <;>
    simp [button_handler, h1, h2, h3, h4, hp, hc, k_work_reschedule]

theorem button_handler_target (cfg : Config) (button_state has_changed : Nat) (s : State)
    (h : s.LTE_Connection_Target_State ≠ LTE_STATE_BUSY) :
    (button_handler cfg button_state has_changed s).LTE_Connection_Target_State
      ≠ LTE_STATE_BUSY := by
  by_cases h1 : (button_state &&& has_changed) &&& DK_BTN1_MSK = 0 <;>
    by_cases h2 : (button_state &&& has_changed) &&& DK_BTN2_MSK = 0 <;>
    by_cases h3 : (button_state &&& has_changed) &&& DK_BTN3_MSK = 0 <;>
    by_cases h4 : (button_state &&& has_changed) &&& DK_BTN4_MSK = 0 <;>
    cases hp : cfg.UDP_PSM_ENABLE <;>
    cases hc : s.LTE_Connection_Current_State <;>
    simp [button_handler, h1, h2, h3, h4, hp, hc, k_work_reschedule, h]

theorem server_connect_socket_failed (env : Env) (s : State) (h : env.socket_ret < 0) :
    server_connect env s = (-env.errno,
      { s with
        client_fd := env.socket_ret
        open_fds := s.open_fds.filter (fun d => d ≠ env.socket_ret)
        trace := s.trace ++ [Call.socket, Call.close env.socket_ret] }) := by
  simp [server_connect, sys_socket, server_disconnect, sys_close, State.call, h, not_le.mpr h]

theorem server_connect_connect_failed (env : Env) (s : State) (h : 0 ≤ env.socket_ret)
    (hc : env.connect_ret < 0) :
    server_connect env s = (env.connect_ret,
      { s with
        client_fd := env.socket_ret
        open_fds := s.open_fds.filter (fun d => d ≠ env.socket_ret)
        trace := s.trace ++ [Call.socket, Call.connect env.socket_ret,
          Call.close env.socket_ret] }) := by
  simp [server_connect, sys_socket, sys_connect, server_disconnect, sys_close, State.call,
    fd_call, h, not_lt.mpr h, hc]

theorem server_connect_ok (env : Env) (s : State) (h : 0 ≤ env.socket_ret)
    (hc : 0 ≤ env.connect_ret) :
    server_connect env s = (0,
      { s with
        client_fd := env.socket_ret
        open_fds := env.socket_ret :: s.open_fds
        trace := s.trace ++ [Call.socket, Call.connect env.socket_ret] }) := by
  simp [server_connect, sys_socket, sys_connect, State.call, fd_call, h, not_lt.mpr h,
    not_lt.mpr hc]

theorem server_connect_post (env : Env) (s : State) :
    (server_connect env s).2.LTE_Connection_Current_State = s.LTE_Connection_Current_State ∧
    (server_connect env s).2.LTE_Connection_Target_State = s.LTE_Connection_Target_State ∧
    (server_connect env s).2.PSM_Enable = s.PSM_Enable ∧
    (server_connect env s).2.RAI_Enable = s.RAI_Enable ∧
    (server_connect env s).2.queue = s.queue ∧
    (server_connect env s).2.now = s.now ∧
    ((server_connect env s).2.client_fd ∈ (server_connect env s).2.open_fds ↔
      (0 ≤ env.socket_ret ∧ 0 ≤ env.connect_ret)) := by
  by_cases h : env.socket_ret < 0
  · rw [server_connect_socket_failed env s h]
    simp [not_le.mpr h]
  · by_cases hc : env.connect_ret < 0
    · rw [server_connect_connect_failed env s (not_lt.mp h) hc]
      simp [not_le.mpr hc]
    · rw [server_connect_ok env s (not_lt.mp h) (not_lt.mp hc)]
      simp [not_lt.mp h, not_lt.mp hc]

theorem pending_schedule_idle (w : Work) (delay : Nat) (s : State)
    (h : pending w s = []) :
    pending w (k_work_schedule w delay s) = [s.now + delay] := by
  have hq : s.queue.filter (fun e => e.1 = w) = [] := by
    simpa [pending] using h
  have ha : s.queue.any (fun e => e.1 = w) = false := by
    rw [Bool.eq_false_iff]
    intro hany
    obtain ⟨e, he, hw⟩ := List.any_eq_true.mp hany
    have : e ∈ s.queue.filter (fun e => e.1 = w) := List.mem_filter.mpr ⟨he, hw⟩
    rw [hq] at this
    exact absurd this (List.not_mem_nil e)
  simp [pending, k_work_schedule, ha, List.filter_append, hq]

theorem k_work_schedule_current (w : Work) (delay : Nat) (s : State) :
    (k_work_schedule w delay s).LTE_Connection_Current_State
      = s.LTE_Connection_Current_State := by
  unfold k_work_schedule
  split_ifs <;> rfl

theorem k_work_schedule_target (w : Work) (delay : Nat) (s : State) :
    (k_work_schedule w delay s).LTE_Connection_Target_State
      = s.LTE_Connection_Target_State := by
  unfold k_work_schedule
  split_ifs <;> rfl

theorem k_work_schedule_PSM_Enable (w : Work) (delay : Nat) (s : State) :
    (k_work_schedule w delay s).PSM_Enable = s.PSM_Enable := by
  unfold k_work_schedule
  split_ifs <;> rfl

theorem k_work_schedule_RAI_Enable (w : Work) (delay : Nat) (s : State) :
    (k_work_schedule w delay s).RAI_Enable = s.RAI_Enable := by
  unfold k_work_schedule
  split_ifs <;> rfl

theorem k_work_schedule_now (w : Work) (delay : Nat) (s : State) :
    (k_work_schedule w delay s).now = s.now := by
  unfold k_work_schedule
  split_ifs <;> rfl

theorem server_transmission_work_fn_post (cfg : Config) (env : Env) (s : State) :
    (server_transmission_work_fn cfg env s).LTE_Connection_Current_State
      = s.LTE_Connection_Current_State ∧
    (server_transmission_work_fn cfg env s).LTE_Connection_Target_State
      = s.LTE_Connection_Target_State ∧
    (server_transmission_work_fn cfg env s).PSM_Enable = s.PSM_Enable ∧
    (server_transmission_work_fn cfg env s).RAI_Enable = s.RAI_Enable ∧
    (server_transmission_work_fn cfg env s).now = s.now ∧
    ((0 ≤ env.socket_ret ∧ 0 ≤ env.connect_ret ∧ 0 ≤ env.send_ret) →
      pending Work.server_transmission_work s = [] →
      pending Work.server_transmission_work (server_transmission_work_fn cfg env s)
        = [s.now + cfg.UDP_DATA_UPLOAD_FREQUENCY_SECONDS]) ∧
    (¬ (0 ≤ env.socket_ret ∧ 0 ≤ env.connect_ret ∧ 0 ≤ env.send_ret) →
      (server_transmission_work_fn cfg env s).queue = s.queue) := by
  have hc := server_connect_post env s
  simp only [server_transmission_work_fn]
  generalize (server_connect env s).2 = t at hc ⊢
  obtain ⟨c1, c2, c3, c4, c5, c6, c7⟩ := hc
  by_cases hm : t.client_fd ∈ t.open_fds
  · by_cases hs : env.send_ret < 0
    · cases hr : t.RAI_Enable <;>
        simp [sys_setsockopt, sys_send, fd_call, State.call, hm, hs, hr, c1, c2, c3, c5, c6,
          ← c4, not_le.mpr hs]
    · have hp : ∀ u : State, u.queue = s.queue → u.now = s.now →
          pending Work.server_transmission_work s = [] →
          pending Work.server_transmission_work
            (k_work_schedule Work.server_transmission_work
              (K_SECONDS cfg.UDP_DATA_UPLOAD_FREQUENCY_SECONDS) u)
            = [s.now + cfg.UDP_DATA_UPLOAD_FREQUENCY_SECONDS] := by
        intro u hq hn hpend
        rw [pending_schedule_idle _ _ _ (by simpa [pending, hq] using hpend), hn]
        rfl
      cases hr : t.RAI_Enable <;>
        simp [sys_setsockopt, sys_send, server_disconnect, sys_close, fd_call, State.call,
          hm, hs, hr, c1, c2, c3, c6, ← c4, k_work_schedule_current, k_work_schedule_target,
          k_work_schedule_PSM_Enable, k_work_schedule_RAI_Enable, k_work_schedule_now,
          c7.mp hm, not_lt.mp hs, not_lt.mpr (c7.mp hm).2] <;>
        exact fun hpend => hp _ c5 rfl hpend
  · have hno : ¬ (0 ≤ env.socket_ret ∧ 0 ≤ env.connect_ret) := fun h => hm (c7.mpr h)
    have hno2 : ¬ (0 ≤ env.socket_ret ∧ 0 ≤ env.connect_ret ∧ 0 ≤ env.send_ret) :=
      fun h => hno ⟨h.1, h.2.1⟩
    cases hr : t.RAI_Enable <;>
      simp [sys_setsockopt, sys_send, fd_call, State.call, hm, hr, c1, c2, c3, c5, c6,
        ← c4, hno2]

theorem lte_set_connection_work_fn_frame (cfg : Config) (env : Env) (s : State) :
    (lte_set_connection_work_fn cfg env s).LTE_Connection_Target_State
      = s.LTE_Connection_Target_State ∧
    (lte_set_connection_work_fn cfg env s).PSM_Enable = s.PSM_Enable ∧
    (lte_set_connection_work_fn cfg env s).RAI_Enable = s.RAI_Enable := by
  simp only [lte_set_connection_work_fn, rai_req_state]
  split_ifs <;> simp [State.call]

theorem run_work_target (cfg : Config) (env : Env) (w : Work) (s : State) :
    (run_work cfg env w s).LTE_Connection_Target_State = s.LTE_Connection_Target_State := by
  cases w
  · exact (server_transmission_work_fn_post cfg env _).2.1
  · exact (lte_set_connection_work_fn_frame cfg env _).1
  · rfl
  · simp [run_work, work_handler, rai_req_work_fn, rai_req_state]

theorem run_work_current (cfg : Config) (env : Env) (w : Work) (s : State) :
    (run_work cfg env w s).LTE_Connection_Current_State = s.LTE_Connection_Current_State ∨
    (run_work cfg env w s).LTE_Connection_Current_State = LTE_STATE_BUSY := by
  cases w
  · exact Or.inl (server_transmission_work_fn_post cfg env _).1
  · exact Or.inr (lte_set_connection_work_fn_current cfg env _)
  · exact Or.inl rfl
  · left
    simp [run_work, work_handler, rai_req_work_fn, rai_req_state]

theorem step_target (cfg : Config) (s : State) (ev : Event)
    (h : s.LTE_Connection_Target_State ≠ LTE_STATE_BUSY) :
    (step cfg s ev).LTE_Connection_Target_State ≠ LTE_STATE_BUSY := by
  cases ev with
  | button button_state has_changed => exact button_handler_target cfg _ _ s h
  | lte evt => simpa [step, lte_handler_target] using h
  | work w env => simpa [step, run_work_target] using h
  | tick seconds => exact h

theorem run_target (cfg : Config) (evs : List Event) (s : State)
    (h : s.LTE_Connection_Target_State ≠ LTE_STATE_BUSY) :
    (run cfg s evs).LTE_Connection_Target_State ≠ LTE_STATE_BUSY := by
  induction evs generalizing s with
  | nil => exact h
  | cons ev evs ih => exact ih (step cfg s ev) (step_target cfg s ev h)

theorem rai_req_calls_only_modem (env : Env) (enable : Bool) :
    Call.lte_lc_offline ∉ rai_req_calls env enable ∧
    Call.lte_lc_normal ∉ rai_req_calls env enable ∧
    (rai_req_calls env enable).head? = some Call.lte_lc_system_mode_get := by
  cases h : env.system_mode <;> by_cases h1 : env.system_mode_get_ret = 0 <;>
    by_cases h2 : env.at_printf_ret = 0 <;>
    simp [rai_req, rai_req_calls, h, h1, h2, State.call, boot_state]

theorem step_current_offline (cfg : Config) (t : State) (ev : Event)
    (h : t.LTE_Connection_Current_State ≠ LTE_STATE_OFFLINE)
    (h' : (step cfg t ev).LTE_Connection_Current_State = LTE_STATE_OFFLINE) :
    ∃ evt, ev = Event.lte evt ∧ evt.type = lte_lc_evt_type.NW_REG_STATUS ∧
      evt.nw_reg_status = 0 := by
  cases ev with
  | button button_state has_changed =>
    rw [step, button_handler_current] at h'
    exact absurd h' h
  | lte evt =>
    refine ⟨evt, rfl, ?_⟩
    cases ht : evt.type <;> simp only [step, lte_handler, ht] at h'
    · split_ifs at h' with h1 h2
      · exact ⟨rfl, h2⟩
      · exact absurd h' h
    all_goals exact absurd h' h
  | work w env =>
    rcases run_work_current cfg env w t with hw | hw
    · rw [step, hw] at h'
      exact absurd h' h
    · rw [step, hw] at h'
      exact absurd h' (by decide)
  | tick seconds => exact absurd h' h

theorem run_current_offline (cfg : Config) (evs : List Event) (t : State)
    (h : t.LTE_Connection_Current_State ≠ LTE_STATE_OFFLINE)
    (h' : (run cfg t evs).LTE_Connection_Current_State = LTE_STATE_OFFLINE) :
    ∃ evt, Event.lte evt ∈ evs ∧ evt.type = lte_lc_evt_type.NW_REG_STATUS ∧
      evt.nw_reg_status = 0 := by
  induction evs generalizing t with
  | nil => exact absurd h' h
  | cons ev evs ih =>
    by_cases hs : (step cfg t ev).LTE_Connection_Current_State = LTE_STATE_OFFLINE
    · obtain ⟨evt, he, h1, h2⟩ := step_current_offline cfg t ev h hs
      exact ⟨evt, by simp [he], h1, h2⟩
    · obtain ⟨evt, he, h1, h2⟩ := ih (step cfg t ev) hs h'
      exact ⟨evt, List.mem_cons_of_mem ev he, h1, h2⟩

theorem button_handler_eq (cfg : Config) (button_state has_changed : Nat) (s : State) :
    button_handler cfg button_state has_changed s =
      if cfg.UDP_PSM_ENABLE then
        if (button_state &&& has_changed) &&& DK_BTN4_MSK ≠ 0 then
          k_work_reschedule Work.rai_req_work K_NO_WAIT
            { before_input4 cfg (button_state &&& has_changed) s with
              RAI_Enable := !(before_input4 cfg (button_state &&& has_changed) s).RAI_Enable }
        else before_input4 cfg (button_state &&& has_changed) s
      else before_input4 cfg (button_state &&& has_changed) s := rfl

theorem before_input4_frame (cfg : Config) (button : Nat) (s : State) :
    (before_input4 cfg button s).RAI_Enable = s.RAI_Enable ∧
    (before_input4 cfg button s).now = s.now ∧
    (before_input4 cfg button s).trace = s.trace := by
  by_cases h1 : button &&& DK_BTN1_MSK = 0 <;>
    by_cases h2 : button &&& DK_BTN2_MSK = 0 <;>
    by_cases h3 : button &&& DK_BTN3_MSK = 0 <;>
    cases hp : cfg.UDP_PSM_ENABLE <;>
    cases hc : s.LTE_Connection_Current_State <;>
    simp [before_input4, h1, h2, h3, hp, hc, k_work_reschedule]

theorem button_handler_input4 (cfg : Config) (button_state has_changed : Nat) (s : State)
    (hpsm : cfg.UDP_PSM_ENABLE = true)
    (hp : (button_state &&& has_changed) &&& DK_BTN4_MSK ≠ 0) :
    (button_handler cfg button_state has_changed s).RAI_Enable = !s.RAI_Enable ∧
    (button_handler cfg button_state has_changed s).now = s.now ∧
    (button_handler cfg button_state has_changed s).trace = s.trace ∧
    pending Work.rai_req_work (button_handler cfg button_state has_changed s) = [s.now] := by
  obtain ⟨f1, f2, f3⟩ := before_input4_frame cfg (button_state &&& has_changed) s
  rw [button_handler_eq, if_pos hpsm, if_pos hp]
  refine ⟨?_, ?_, ?_, ?_⟩
  · simp [k_work_reschedule, f1]
  · simp [k_work_reschedule, f2]
  · simp [k_work_reschedule, f3]
  · rw [pending_reschedule_self]
    simp [f2, K_NO_WAIT]

/-! ## Claims -/

/-- C4: `rai_req enable` returns `-EOPNOTSUPP` exactly when the system-mode query
succeeds and the mode is outside the LTE-M/NB-IoT family, and then the mode query
is the only collaborator call (no AT command); a failing mode query or a failing
AT command gives `-EFAULT`, which differs from `-EOPNOTSUPP`; the result is `0`
exactly when the query succeeds, the mode is in the family and the AT command
succeeds, the command being `AT%RAI=1` for `enable` and `AT%RAI=0` otherwise. -/
theorem rai_req_result (env : Env) (enable : Bool) (s : State) :
    ((rai_req env enable s).1 = -EOPNOTSUPP ↔
        (env.system_mode_get_ret = 0 ∧
          env.system_mode ∉ [lte_lc_system_mode.LTEM, lte_lc_system_mode.LTEM_GPS,
            lte_lc_system_mode.NBIOT, lte_lc_system_mode.NBIOT_GPS,
            lte_lc_system_mode.LTEM_NBIOT, lte_lc_system_mode.LTEM_NBIOT_GPS])) ∧
    ((rai_req env enable s).1 = -EOPNOTSUPP →
        (rai_req env enable s).2.trace = s.trace ++ [Call.lte_lc_system_mode_get]) ∧
    (env.system_mode_get_ret ≠ 0 →
        (rai_req env enable s).1 = -EFAULT ∧
        (rai_req env enable s).2.trace = s.trace ++ [Call.lte_lc_system_mode_get]) ∧
    (env.system_mode_get_ret = 0 →
        env.system_mode ∈ [lte_lc_system_mode.LTEM, lte_lc_system_mode.LTEM_GPS,
            lte_lc_system_mode.NBIOT, lte_lc_system_mode.NBIOT_GPS,
            lte_lc_system_mode.LTEM_NBIOT, lte_lc_system_mode.LTEM_NBIOT_GPS] →
        (rai_req env enable s).2.trace = s.trace ++ [Call.lte_lc_system_mode_get,
            Call.nrf_modem_at_printf (if enable then "AT%RAI=1" else "AT%RAI=0")] ∧
        (env.at_printf_ret ≠ 0 → (rai_req env enable s).1 = -EFAULT)) ∧
    ((rai_req env enable s).1 = 0 ↔
        (env.system_mode_get_ret = 0 ∧
          env.system_mode ∈ [lte_lc_system_mode.LTEM, lte_lc_system_mode.LTEM_GPS,
            lte_lc_system_mode.NBIOT, lte_lc_system_mode.NBIOT_GPS,
            lte_lc_system_mode.LTEM_NBIOT, lte_lc_system_mode.LTEM_NBIOT_GPS] ∧
          env.at_printf_ret = 0)) ∧
    -EFAULT ≠ -EOPNOTSUPP ∧ -EFAULT ≠ 0 ∧ -EOPNOTSUPP ≠ 0 := by
  cases h : env.system_mode <;> by_cases h1 : env.system_mode_get_ret = 0 <;>
    by_cases h2 : env.at_printf_ret = 0 <;>
    simp [rai_req, h, h1, h2, State.call, EFAULT, EOPNOTSUPP]

/-- C3: `lte_handler` changes nothing but `current`: a registration-status event
reporting home or roaming sets it to Online, one reporting status 0 sets it to
Offline, a registration-status event with any other status and every event of
another type leave the whole state as it was; and the transition job, however it is
run, ends with `current` Connecting, so it never sets Online or Offline. -/
theorem lte_handler_updates_current (cfg : Config) (env : Env) (evt : lte_lc_evt)
    (s : State) :
    (evt.type = lte_lc_evt_type.NW_REG_STATUS →
        (evt.nw_reg_status = LTE_LC_NW_REG_REGISTERED_HOME ∨
          evt.nw_reg_status = LTE_LC_NW_REG_REGISTERED_ROAMING) →
        lte_handler evt s = { s with LTE_Connection_Current_State := LTE_STATE_ON }) ∧
    (evt.type = lte_lc_evt_type.NW_REG_STATUS → evt.nw_reg_status = 0 →
        lte_handler evt s = { s with LTE_Connection_Current_State := LTE_STATE_OFFLINE }) ∧
    (evt.type = lte_lc_evt_type.NW_REG_STATUS →
        evt.nw_reg_status ≠ LTE_LC_NW_REG_REGISTERED_HOME →
        evt.nw_reg_status ≠ LTE_LC_NW_REG_REGISTERED_ROAMING →
        evt.nw_reg_status ≠ 0 → lte_handler evt s = s) ∧
    (evt.type ≠ lte_lc_evt_type.NW_REG_STATUS → lte_handler evt s = s) ∧
    (lte_handler evt s).LTE_Connection_Target_State = s.LTE_Connection_Target_State ∧
    (lte_handler evt s).PSM_Enable = s.PSM_Enable ∧
    (lte_handler evt s).RAI_Enable = s.RAI_Enable ∧
    (lte_set_connection_work_fn cfg env s).LTE_Connection_Current_State = LTE_STATE_BUSY ∧
    (run_work cfg env Work.lte_set_connection_work s).LTE_Connection_Current_State
      = LTE_STATE_BUSY := by
  refine ⟨?_, ?_, ?_, ?_, ?_, ?_, ?_, ?_, ?_⟩
  · intro ht hs
    rcases hs with hs | hs <;>
      simp [lte_handler, ht, hs, LTE_LC_NW_REG_REGISTERED_HOME,
        LTE_LC_NW_REG_REGISTERED_ROAMING]
  · intro ht hs
    simp [lte_handler, ht, hs, LTE_LC_NW_REG_REGISTERED_HOME,
      LTE_LC_NW_REG_REGISTERED_ROAMING]
  · intro ht h1 h2 h3
    simp [lte_handler, ht, h1, h2, h3]
  · intro ht
    cases h : evt.type <;> simp_all [lte_handler]
  · exact lte_handler_target evt s
  · exact lte_handler_PSM_Enable evt s
  · exact lte_handler_RAI_Enable evt s
  · exact lte_set_connection_work_fn_current cfg env s
  · exact lte_set_connection_work_fn_current cfg env _

/-- C5: when input 2 alone is pressed, `button_handler` sets `target` to Offline
if `current` is Online and to Online if `current` is Offline, and in both cases
leaves the transition job pending exactly once, due now; if `current` is
Connecting the state is returned as it was.  Nothing else changes: `current`,
`psmEnabled`, `raiEnabled`, the other jobs and the collaborator trace (no
transition logic runs inline) are as before. -/
theorem button_handler_input2 (cfg : Config) (button_state has_changed : Nat) (s : State)
    (hp : only_pressed DK_BTN2_MSK button_state has_changed) :
    (s.LTE_Connection_Current_State = LTE_STATE_ON →
        button_handler cfg button_state has_changed s =
          { s with
            LTE_Connection_Target_State := LTE_STATE_OFFLINE
            queue := s.queue.filter (fun e => e.1 ≠ Work.lte_set_connection_work) ++
              [(Work.lte_set_connection_work, s.now)] } ∧
        pending Work.lte_set_connection_work (button_handler cfg button_state has_changed s)
          = [s.now]) ∧
    (s.LTE_Connection_Current_State = LTE_STATE_OFFLINE →
        button_handler cfg button_state has_changed s =
          { s with
            LTE_Connection_Target_State := LTE_STATE_ON
            queue := s.queue.filter (fun e => e.1 ≠ Work.lte_set_connection_work) ++
              [(Work.lte_set_connection_work, s.now)] } ∧
        pending Work.lte_set_connection_work (button_handler cfg button_state has_changed s)
          = [s.now]) ∧
    (s.LTE_Connection_Current_State = LTE_STATE_BUSY →
        button_handler cfg button_state has_changed s = s) := by
  obtain ⟨h1, h2, h3, h4⟩ := only_pressed_btn2 hp
  refine ⟨?_, ?_, ?_⟩
  · intro hc
    have hb : button_handler cfg button_state has_changed s =
        k_work_reschedule Work.lte_set_connection_work K_NO_WAIT
          { s with LTE_Connection_Target_State := LTE_STATE_OFFLINE } := by
      simp [button_handler, h1, h2, h3, h4, hc]
    rw [hb]
    exact ⟨by simp [k_work_reschedule, K_NO_WAIT], by
      simpa [K_NO_WAIT] using pending_reschedule_self Work.lte_set_connection_work K_NO_WAIT
        { s with LTE_Connection_Target_State := LTE_STATE_OFFLINE }⟩
  · intro hc
    have hb : button_handler cfg button_state has_changed s =
        k_work_reschedule Work.lte_set_connection_work K_NO_WAIT
          { s with LTE_Connection_Target_State := LTE_STATE_ON } := by
      simp [button_handler, h1, h2, h3, h4, hc]
    rw [hb]
    exact ⟨by simp [k_work_reschedule, K_NO_WAIT], by
      simpa [K_NO_WAIT] using pending_reschedule_self Work.lte_set_connection_work K_NO_WAIT
        { s with LTE_Connection_Target_State := LTE_STATE_ON }⟩
  · intro hc
    exact input2_busy_noop cfg button_state has_changed s hp hc

/-- Witness for C5: input 2 pressed alone while Online leaves the transition job
pending once, due at time 0, with `target` Offline. -/
theorem button_handler_input2_witness :
    only_pressed DK_BTN2_MSK 2 2 ∧
    (button_handler sample_config 2 2 online_state).LTE_Connection_Target_State
      = LTE_STATE_OFFLINE ∧
    pending Work.lte_set_connection_work (button_handler sample_config 2 2 online_state)
      = [0] :=
  ⟨by decide,
   by rw [((button_handler_input2 sample_config 2 2 online_state (by decide)).1 rfl).1],
   ((button_handler_input2 sample_config 2 2 online_state (by decide)).1 rfl).2⟩

/-- C6, as stated, fails: with `current` Connecting and `target` Online, a press of
input 2 alone does not flip `target` to Offline. -/
theorem input2_while_connecting_counterexample :
    boot_state.LTE_Connection_Current_State = LTE_STATE_BUSY ∧
    boot_state.LTE_Connection_Target_State = LTE_STATE_ON ∧
    only_pressed DK_BTN2_MSK 2 2 ∧
    (button_handler sample_config 2 2 boot_state).LTE_Connection_Target_State
      ≠ LTE_STATE_OFFLINE := by
  decide

/-- C6 amended: every sequence of presses of input 2 alone delivered while
`current` is Connecting is ignored: the state after the whole sequence is the
state before it, so `target` is not updated and no transition job is scheduled. -/
theorem input2_ignored_while_connecting (cfg : Config) (presses : List (Nat × Nat))
    (s : State) (hc : s.LTE_Connection_Current_State = LTE_STATE_BUSY)
    (hp : ∀ p ∈ presses, only_pressed DK_BTN2_MSK p.1 p.2) :
    run cfg s (presses.map (fun p => Event.button p.1 p.2)) = s := by
  induction presses with
  | nil => rfl
  | cons p ps ih =>
    have h1 : button_handler cfg p.1 p.2 s = s :=
      input2_busy_noop cfg p.1 p.2 s (hp p (List.mem_cons_self p ps)) hc
    have h2 : ∀ q ∈ ps, only_pressed DK_BTN2_MSK q.1 q.2 :=
      fun q hq => hp q (List.mem_cons_of_mem p hq)
    simpa [run, step, h1] using ih h2

/-- Witness for C6 amended: three presses of input 2 during boot leave the boot
state as it is. -/
theorem input2_ignored_while_connecting_witness :
    boot_state.LTE_Connection_Current_State = LTE_STATE_BUSY ∧
    (∀ p ∈ [((2 : Nat), (2 : Nat)), (6, 2), (2, 3)], only_pressed DK_BTN2_MSK p.1 p.2) ∧
    run sample_config boot_state
      ([((2 : Nat), (2 : Nat)), (6, 2), (2, 3)].map (fun p => Event.button p.1 p.2))
      = boot_state :=
  ⟨rfl, by decide,
   input2_ignored_while_connecting sample_config [(2, 2), (6, 2), (2, 3)] boot_state rfl
     (by decide)⟩

/-- C10: in every state reached from the boot state by a finite sequence of button
events, link events, job executions and clock ticks, `target` is Online or
Offline, never Connecting; so a run of the transition job from such a state does
not take its `target == Connecting` branch, and it ends with `current`
Connecting. -/
theorem target_never_busy (cfg : Config) (evs : List Event) (env : Env) :
    ((run cfg boot_state evs).LTE_Connection_Target_State = LTE_STATE_ON ∨
      (run cfg boot_state evs).LTE_Connection_Target_State = LTE_STATE_OFFLINE) ∧
    (run cfg boot_state evs).LTE_Connection_Target_State ≠ LTE_STATE_BUSY ∧
    (run cfg (run cfg boot_state evs) [Event.work Work.lte_set_connection_work env]
      ).LTE_Connection_Current_State = LTE_STATE_BUSY ∧
    (lte_set_connection_work_fn cfg env (run cfg boot_state evs)
      ).LTE_Connection_Current_State = LTE_STATE_BUSY := by
  have h : (run cfg boot_state evs).LTE_Connection_Target_State ≠ LTE_STATE_BUSY :=
    run_target cfg evs boot_state (by decide)
  refine ⟨?_, h, lte_set_connection_work_fn_current cfg env _,
    lte_set_connection_work_fn_current cfg env _⟩
  cases ht : (run cfg boot_state evs).LTE_Connection_Target_State
  · exact Or.inl rfl
  · exact Or.inr rfl
  · exact absurd ht h

/-- C1: with the early-release feature compiled in and `target` Online, one run of
the transition job, whatever the collaborators answer, makes exactly the calls
`lte_lc_offline`, then those of `rai_req` applied to the current `RAI_Enable`,
then `lte_lc_normal`; the calls of `rai_req` start with the mode query and contain
neither `lte_lc_offline` nor `lte_lc_normal`, so each of the three steps happens
once and in this order.  Apart from the trace only `current` changes, to
Connecting. -/
theorem transition_job_online_calls (cfg : Config) (env : Env) (s : State)
    (hrai : cfg.UDP_RAI_ENABLE = true)
    (ht : s.LTE_Connection_Target_State = LTE_STATE_ON) :
    lte_set_connection_work_fn cfg env s =
      { s with
        LTE_Connection_Current_State := LTE_STATE_BUSY
        trace := s.trace ++ [Call.lte_lc_offline] ++ rai_req_calls env s.RAI_Enable ++
          [Call.lte_lc_normal] } ∧
    Call.lte_lc_offline ∉ rai_req_calls env s.RAI_Enable ∧
    Call.lte_lc_normal ∉ rai_req_calls env s.RAI_Enable ∧
    (rai_req_calls env s.RAI_Enable).head? = some Call.lte_lc_system_mode_get := by
  refine ⟨?_, rai_req_calls_only_modem env s.RAI_Enable⟩
  simp [lte_set_connection_work_fn, ht, hrai, rai_req_state, State.call]

/-- Witness for C1: from the boot state (target Online, `RAI_Enable` false) with
collaborators that succeed in LTE-M mode, the job calls `lte_lc_offline`, the mode
query, `AT%RAI=0`, `lte_lc_normal`. -/
theorem transition_job_online_calls_witness :
    sample_config.UDP_RAI_ENABLE = true ∧
    boot_state.LTE_Connection_Target_State = LTE_STATE_ON ∧
    (lte_set_connection_work_fn sample_config good_env boot_state).trace =
      [Call.lte_lc_offline, Call.lte_lc_system_mode_get,
        Call.nrf_modem_at_printf "AT%RAI=0", Call.lte_lc_normal] :=
  ⟨rfl, rfl, by
    rw [(transition_job_online_calls sample_config good_env boot_state rfl rfl).1]
    rfl⟩

/-- C2: with `target` Offline, one run of the transition job sets `current` to
Connecting and calls `lte_lc_offline` once and nothing else (no `rai_req`, no
`lte_lc_normal`); `target`, `PSM_Enable`, `RAI_Enable` and the rest of the state
are as before.  Afterwards `current` turns Offline when `lte_handler` handles a
registration event with status 0, and along any later sequence of events it can
only be Offline if such an event is among them. -/
theorem transition_job_offline (cfg : Config) (env : Env) (s : State)
    (ht : s.LTE_Connection_Target_State = LTE_STATE_OFFLINE) :
    lte_set_connection_work_fn cfg env s =
      { s with
        LTE_Connection_Current_State := LTE_STATE_BUSY
        trace := s.trace ++ [Call.lte_lc_offline] } ∧
    (lte_handler { type := lte_lc_evt_type.NW_REG_STATUS, nw_reg_status := 0 }
        (lte_set_connection_work_fn cfg env s)).LTE_Connection_Current_State
      = LTE_STATE_OFFLINE ∧
    (∀ evs : List Event,
      (run cfg (lte_set_connection_work_fn cfg env s) evs).LTE_Connection_Current_State
          = LTE_STATE_OFFLINE →
        ∃ evt, Event.lte evt ∈ evs ∧ evt.type = lte_lc_evt_type.NW_REG_STATUS ∧
          evt.nw_reg_status = 0) := by
  refine ⟨by simp [lte_set_connection_work_fn, ht, State.call], ?_, ?_⟩
  · simp [lte_handler, LTE_LC_NW_REG_REGISTERED_HOME, LTE_LC_NW_REG_REGISTERED_ROAMING]
  · intro evs h
    refine run_current_offline cfg evs _ ?_ h
    rw [lte_set_connection_work_fn_current]
    decide

/-- Witness for C2: after input 2 is pressed while Online, the transition job
calls only `lte_lc_offline` and leaves `current` Connecting. -/
theorem transition_job_offline_witness :
    (button_handler sample_config 2 2 online_state).LTE_Connection_Target_State
      = LTE_STATE_OFFLINE ∧
    (lte_set_connection_work_fn sample_config good_env
        (button_handler sample_config 2 2 online_state)).trace = [Call.lte_lc_offline] ∧
    (lte_set_connection_work_fn sample_config good_env
        (button_handler sample_config 2 2 online_state)).LTE_Connection_Current_State
      = LTE_STATE_BUSY :=
  ⟨by decide,
   by rw [(transition_job_offline sample_config good_env
        (button_handler sample_config 2 2 online_state) (by decide)).1]; decide,
   by rw [(transition_job_offline sample_config good_env
        (button_handler sample_config 2 2 online_state) (by decide)).1]⟩

/-- C7 fails on the code: when the socket is created (descriptor 3) and connected
and `send` then fails, the transmit job returns with descriptor 3 still open and
without having called `close`; no firing of the job is pending. -/
theorem transmit_job_send_failure_leaks_session :
    (3 : Int) ∈ (run_work sample_config send_fails_env Work.server_transmission_work
      online_state).open_fds ∧
    (run_work sample_config send_fails_env Work.server_transmission_work
      online_state).trace = [Call.socket, Call.connect 3, Call.send 3 1] ∧
    pending Work.server_transmission_work
      (run_work sample_config send_fails_env Work.server_transmission_work online_state)
      = [] := by
  decide

/-- C8: a run of the transmit job leaves the job pending exactly when socket
creation, connect and send all succeeded, and then it is pending once, at the
time of the run plus `CONFIG_UDP_DATA_UPLOAD_FREQUENCY_SECONDS`; if one of the
three failed no firing of the job is pending.  The results of the two
`setsockopt` calls have no influence on this. -/
theorem transmit_job_reschedule (cfg : Config) (env : Env) (s : State) :
    ((0 ≤ env.socket_ret ∧ 0 ≤ env.connect_ret ∧ 0 ≤ env.send_ret) →
      pending Work.server_transmission_work
        (run_work cfg env Work.server_transmission_work s)
        = [s.now + cfg.UDP_DATA_UPLOAD_FREQUENCY_SECONDS]) ∧
    (¬ (0 ≤ env.socket_ret ∧ 0 ≤ env.connect_ret ∧ 0 ≤ env.send_ret) →
      pending Work.server_transmission_work
        (run_work cfg env Work.server_transmission_work s) = []) ∧
    (∀ a b : Int,
      pending Work.server_transmission_work
        (run_work cfg { env with setsockopt_last_ret := a, setsockopt_no_data_ret := b }
          Work.server_transmission_work s)
      = pending Work.server_transmission_work
        (run_work cfg env Work.server_transmission_work s)) := by
  have key : ∀ e : Env,
      ((0 ≤ e.socket_ret ∧ 0 ≤ e.connect_ret ∧ 0 ≤ e.send_ret) →
        pending Work.server_transmission_work
          (run_work cfg e Work.server_transmission_work s)
          = [s.now + cfg.UDP_DATA_UPLOAD_FREQUENCY_SECONDS]) ∧
      (¬ (0 ≤ e.socket_ret ∧ 0 ≤ e.connect_ret ∧ 0 ≤ e.send_ret) →
        pending Work.server_transmission_work
          (run_work cfg e Work.server_transmission_work s) = []) := by
    intro e
    obtain ⟨-, -, -, -, -, hok, hfail⟩ := server_transmission_work_fn_post cfg e
      { s with queue := s.queue.filter (fun x => x.1 ≠ Work.server_transmission_work) }
    refine ⟨fun h => hok h (pending_dequeued _ s), fun h => ?_⟩
    have hq := hfail h
    have hd := pending_dequeued Work.server_transmission_work s
    simp only [pending] at hd ⊢
    simp only [run_work, work_handler]
    rw [hq]
    exact hd
  refine ⟨(key env).1, (key env).2, fun a b => ?_⟩
  by_cases h : 0 ≤ env.socket_ret ∧ 0 ≤ env.connect_ret ∧ 0 ≤ env.send_ret
  · rw [(key env).1 h]
    exact (key _).1 h
  · rw [(key env).2 h]
    exact (key _).2 h

/-- C9, as stated, fails: in a build without `CONFIG_UDP_PSM_ENABLE` the input-4
block of `button_handler` is compiled out, so starting from the boot state
(`RAI_Enable` false, nothing pending) a press of input 4 does not flip
`RAI_Enable`, and after two presses no firing of the early-release job is
pending. -/
theorem rai_toggle_counterexample :
    boot_state.RAI_Enable = false ∧
    pending Work.rai_req_work boot_state = [] ∧
    (8 &&& 8) &&& DK_BTN4_MSK ≠ 0 ∧
    (button_handler plain_config 8 8 boot_state).RAI_Enable = false ∧
    pending Work.rai_req_work
      (button_handler plain_config 8 8 (button_handler plain_config 8 8 boot_state)) = [] := by
  decide

/-- C9 amended: in a build with `CONFIG_UDP_PSM_ENABLE` and `CONFIG_UDP_RAI_ENABLE`,
every event in which input 4 is pressed flips `RAI_Enable`, whatever the radio mode
and without calling any collaborator, so two such events restore the flag.
Starting with `RAI_Enable` false, after two such events with no job run in between
the flag is false and the early-release job is pending exactly once, due now; its
run then makes the calls of `rai_req false` and nothing else, leaves the flag
false and leaves no firing of the job pending. -/
theorem rai_toggle_round_trip (cfg : Config) (env : Env) (s : State)
    (b1 c1 b2 c2 : Nat)
    (hpsm : cfg.UDP_PSM_ENABLE = true) (_hrai : cfg.UDP_RAI_ENABLE = true)
    (hp1 : (b1 &&& c1) &&& DK_BTN4_MSK ≠ 0) (hp2 : (b2 &&& c2) &&& DK_BTN4_MSK ≠ 0) :
    (button_handler cfg b1 c1 s).RAI_Enable = !s.RAI_Enable ∧
    (button_handler cfg b1 c1 s).trace = s.trace ∧
    (button_handler cfg b2 c2 (button_handler cfg b1 c1 s)).RAI_Enable = s.RAI_Enable ∧
    (button_handler cfg b2 c2 (button_handler cfg b1 c1 s)).trace = s.trace ∧
    (s.RAI_Enable = false →
      (button_handler cfg b2 c2 (button_handler cfg b1 c1 s)).RAI_Enable = false ∧
      pending Work.rai_req_work (button_handler cfg b2 c2 (button_handler cfg b1 c1 s))
        = [s.now] ∧
      (run_work cfg env Work.rai_req_work
          (button_handler cfg b2 c2 (button_handler cfg b1 c1 s))).trace
        = s.trace ++ rai_req_calls env false ∧
      (run_work cfg env Work.rai_req_work
          (button_handler cfg b2 c2 (button_handler cfg b1 c1 s))).RAI_Enable = false ∧
      pending Work.rai_req_work
        (run_work cfg env Work.rai_req_work
          (button_handler cfg b2 c2 (button_handler cfg b1 c1 s))) = []) := by
  obtain ⟨r1, n1, t1, -⟩ := button_handler_input4 cfg b1 c1 s hpsm hp1
  obtain ⟨r2, n2, t2, q2⟩ :=
    button_handler_input4 cfg b2 c2 (button_handler cfg b1 c1 s) hpsm hp2
  have hr : (button_handler cfg b2 c2 (button_handler cfg b1 c1 s)).RAI_Enable
      = s.RAI_Enable := by
    rw [r2, r1, Bool.not_not]
  refine ⟨r1, t1, hr, t2.trans t1, fun hs => ⟨hr.trans hs, by rw [q2, n1], ?_, ?_, ?_⟩⟩
  · simp [run_work, work_handler, rai_req_work_fn, rai_req_state, hr, hs, t2, t1]
  · simp [run_work, work_handler, rai_req_work_fn, rai_req_state, hr, hs]
  · have hd := pending_dequeued Work.rai_req_work
      (button_handler cfg b2 c2 (button_handler cfg b1 c1 s))
    simp only [pending] at hd
    simp [run_work, work_handler, rai_req_work_fn, rai_req_state, pending, hd]

/-- Witness for C9 amended: two presses of input 4 from the boot state, then the
job's run in LTE-M mode, issue the mode query and `AT%RAI=0`. -/
theorem rai_toggle_round_trip_witness :
    sample_config.UDP_PSM_ENABLE = true ∧ sample_config.UDP_RAI_ENABLE = true ∧
    (8 &&& 8) &&& DK_BTN4_MSK ≠ 0 ∧ boot_state.RAI_Enable = false ∧
    pending Work.rai_req_work
      (button_handler sample_config 8 8 (button_handler sample_config 8 8 boot_state)) = [0] ∧
    (run_work sample_config good_env Work.rai_req_work
        (button_handler sample_config 8 8 (button_handler sample_config 8 8 boot_state))).trace
      = [Call.lte_lc_system_mode_get, Call.nrf_modem_at_printf "AT%RAI=0"] :=
  ⟨rfl, rfl, by decide, rfl,
   ((rai_toggle_round_trip sample_config good_env boot_state 8 8 8 8 rfl rfl
      (by decide) (by decide)).2.2.2.2 rfl).2.1,
   ((rai_toggle_round_trip sample_config good_env boot_state 8 8 8 8 rfl rfl
      (by decide) (by decide)).2.2.2.2 rfl).2.2.1⟩

end UdpSample
